import Mathlib

/-!
Verification of the FWHR calculator (`FWHR_calculator.py`): a shallow
embedding of the landmark geometry extractor, the picture-quality gate,
the ratio calculator, the URL loading logic and the batch orchestrator,
together with proofs of the repository specification's properties.

Modelling conventions: integer pixel coordinates are `ℤ`; Python float
arithmetic on them is modelled exactly by `ℚ`; a Python exception
(`ValueError`, `ZeroDivisionError`, `IndexError`) is `Except.error` with
the kind of the exception as the message; external collaborators (image
decoding, the landmark detector, the tabular sort) are parameters of, or
clearly marked models next to, the functions that call them.
-/

/-- A 68-point facial landmark list: index `i` holds the `(x, y)` pixel
coordinates of landmark `i` (the `landmarks_as_tuples` list). -/
abbrev Points := Fin 68 → ℤ × ℤ

/-- The dictionary of box corners built by `get_face_points`
(keys `top_left`, `bottom_left`, `top_right`, `bottom_right`). -/
structure BoxCorners where
  top_left : ℤ × ℤ
  bottom_left : ℤ × ℤ
  top_right : ℤ × ℤ
  bottom_right : ℤ × ℤ
  deriving DecidableEq

instance {ε α : Type} [DecidableEq ε] [DecidableEq α] :
    DecidableEq (Except ε α) := fun a b =>
  match a, b with
  | Except.ok x, Except.ok y =>
      if h : x = y then isTrue (by rw [h]) else isFalse (by simp [h])
  | Except.error e, Except.error f =>
      if h : e = f then isTrue (by rw [h]) else isFalse (by simp [h])
  | Except.ok _, Except.error _ => isFalse (by simp)
  | Except.error _, Except.ok _ => isFalse (by simp)

/-- `get_face_points(points, method, top)` (source lines 37-89): the
corners of the FWHR box.  `Except.error` models the `ValueError` raised
on an invalid `top`; Python's `int((a + b) / 2)` truncates toward zero,
which is `Int.tdiv (a + b) 2`. -/
def get_face_points (points : Points) (method : String) (top : String) :
    Except String BoxCorners :=
  let width_left := points 0
  let width_right := points 16
  let tops : Except String ((ℤ × ℤ) × (ℤ × ℤ)) :=
    if top = "eyebrow" then Except.ok (points 18, points 25)
    else if top = "eyelid" then Except.ok (points 37, points 43)
    else Except.error "Invalid top point, use either eyebrow or eyelid"
  match tops with
  | Except.error e => Except.error e
  | Except.ok (top_left, top_right) =>
    let bottom_left := points 50
    let bottom_right := points 52
    let coords :=
      if method = "left" then
        (width_left.1, width_right.1, top_left.2, bottom_left.2)
      else if method = "right" then
        (width_left.1, width_right.1, top_right.2, bottom_right.2)
      else
        (width_left.1, width_right.1,
         Int.tdiv (top_left.2 + top_right.2) 2,
         Int.tdiv (bottom_left.2 + bottom_right.2) 2)
    let coords :=
      if top = "eyelid" then
        (coords.1, coords.2.1, coords.2.2.1 - 4, coords.2.2.2)
      else coords
    Except.ok
      { top_left := (coords.1, coords.2.2.1)
        bottom_left := (coords.1, coords.2.2.2)
        top_right := (coords.2.1, coords.2.2.1)
        bottom_right := (coords.2.1, coords.2.2.2) }

/-- `width_im` (line 104): face width scaled to percent units. -/
def width_im (p : Points) : ℚ :=
  (((p 16).1 - (p 0).1 : ℤ) : ℚ) / 100

/-- `eye_dif` (lines 107-109): normalized difference in height between
the two eyes. -/
def eye_dif (p : Points) : ℚ :=
  let eye_y_l : ℚ := (((p 37).2 + (p 41).2 : ℤ) : ℚ) / 2
  let eye_y_r : ℚ := (((p 44).2 + (p 46).2 : ℤ) : ℚ) / 2
  (eye_y_r - eye_y_l) / width_im p

/-- `nose_dif` (line 112): normalized horizontal tilt of the nose. -/
def nose_dif (p : Points) : ℚ :=
  (((p 30).1 - (p 27).1 : ℤ) : ℚ) / width_im p

/-- `space_ratio` (lines 115-117): face-edge-to-eye space, left over
right. -/
def space_ratio (p : Points) : ℚ :=
  (((p 36).1 - (p 0).1 : ℤ) : ℚ) / (((p 16).1 - (p 45).1 : ℤ) : ℚ)

/-- `good_picture_check(p)` (lines 92-126).  The two `Except.error`
branches model the `ZeroDivisionError` Python raises when the divisor of
`eye_dif` (face width, first used at line 109) or of `space_ratio`
(right space, line 117) is zero; the checks appear in source evaluation
order. -/
def good_picture_check (p : Points) : Except String Bool :=
  if (p 16).1 - (p 0).1 = 0 then Except.error "ZeroDivisionError"
  else if (p 16).1 - (p 45).1 = 0 then Except.error "ZeroDivisionError"
  else if eye_dif p > 5 ∨ nose_dif p > (3.5 : ℚ) ∨ space_ratio p > 3 then
    Except.ok false
  else Except.ok true

/-- `FWHR_calc(corners)` (lines 129-140).  `Except.error` models the
`ZeroDivisionError` raised when the height is zero; otherwise the
quotient is returned unchanged, negative heights included. -/
def FWHR_calc (corners : BoxCorners) : Except String ℚ :=
  let width := corners.top_right.1 - corners.top_left.1
  let height := corners.bottom_left.2 - corners.top_left.2
  if height = 0 then Except.error "ZeroDivisionError"
  else Except.ok ((width : ℚ) / (height : ℚ))

/-- `load_image(path, url)` (lines 11-34), modelled as the name of the
local file handed to the external decoder: the path itself when
`url=False`, the fixed temporary download target when `url=True`.
Python's `path[-3:]` is `String.takeRight 3`.  The second `png` branch
of the source is kept even though the first branch shadows it. -/
def load_image (path : String) (url : Bool) : Except String String :=
  if !url then Except.ok path
  else if path.takeRight 3 = "jpg" ∨ path.takeRight 3 = "png" then
    Except.ok "tmp.jpg"
  else if path.takeRight 3 = "png" then Except.ok "tmp.png"
  else Except.error "Unknown image type"

/-- The external landmark detector (`face_recognition`): for each local
image file, the list of detected faces, each a 68-point landmark list. -/
abbrev Detector := String → List Points

/-- `get_fwhr(image_path, url, show=False, method, top)` (lines
170-201), the `show=False` branch used by the batch orchestrator:
`Except.ok (some r)` is a returned ratio, `Except.ok none` the `None`
returned when the quality gate rejects, `Except.error` a propagated
exception (`landmarks[0]` on zero detected faces is an `IndexError`). -/
def get_fwhr (detect : Detector) (image_path : String) (url : Bool)
    (method : String) (top : String) : Except String (Option ℚ) :=
  match load_image image_path url with
  | Except.error e => Except.error e
  | Except.ok image =>
    match (detect image).head? with
    | none => Except.error "IndexError"
    | some landmarks_as_tuples =>
      match good_picture_check landmarks_as_tuples with
      | Except.error e => Except.error e
      | Except.ok true =>
        match get_face_points landmarks_as_tuples method top with
        | Except.error e => Except.error e
        | Except.ok corners =>
          match FWHR_calc corners with
          | Except.error e => Except.error e
          | Except.ok fwh_ratio => Except.ok (some fwh_ratio)
      | Except.ok false => Except.ok none

/-- Python's `filename.endswith(post)`: the last `post.length`
characters equal `post`. -/
def ends_with (s post : String) : Bool :=
  decide (s.takeRight post.length = post)

/-- Body of the batch loop (lines 222-225): one `(filename, ratio)`
record, with the exceptions of `get_fwhr` propagated. -/
def bulk_row (detect : Detector) (folder_path filename : String) :
    Except String (String × Option ℚ) :=
  (get_fwhr detect (folder_path ++ filename) false "average" "eyelid").map
    fun fwh_ratio => (filename, fwh_ratio)

/-- The batch loop (lines 219-225): every `.jpg`/`.png` file in listing
order; the first exception aborts the whole batch. -/
def bulk_rows (detect : Detector) (folder_path : String)
    (files : List String) : Except String (List (String × Option ℚ)) :=
  (files.filter fun f => ends_with f ".jpg" || ends_with f ".png").mapM
    (bulk_row detect folder_path)

/-- Modelled from the spec: the external tabular sort
(`pandas.DataFrame.sort_values`, not part of the repository) by
filename, ascending. -/
def filename_le (a b : String × Option ℚ) : Bool :=
  decide (a.1 ≤ b.1)

/-- Modelled from the spec: the external tabular sort by ratio,
ascending with missing ratios placed last. -/
def ratio_le (a b : String × Option ℚ) : Bool :=
  match a.2, b.2 with
  | some x, some y => decide (x ≤ y)
  | some _, none => true
  | none, some _ => false
  | none, none => true

/-- `get_fwhr_bulk(folder_path, sort_by)` (lines 204-241), with the
directory listing and the detector as parameters.  `Except.ok` carries
the CSV path written and the sorted rows; `Except.error` models the
`ValueError` on an unrecognized `sort_by` (raised before any file is
written) or an exception propagated from the loop. -/
def get_fwhr_bulk (detect : Detector) (files : List String)
    (folder_path : String) (sort_by : String) :
    Except String (String × List (String × Option ℚ)) :=
  match bulk_rows detect folder_path files with
  | Except.error e => Except.error e
  | Except.ok image_data =>
    if sort_by = "filename" then
      Except.ok (folder_path ++ "fwhr_ratios.csv",
        image_data.mergeSort filename_le)
    else if sort_by = "ratio" then
      Except.ok (folder_path ++ "fwhr_ratios.csv",
        image_data.mergeSort ratio_le)
    else
      Except.error ("Invalid value for sort_by: " ++ sort_by ++
        ". Accepted values are filename and ratio.")

/-- The y-value `method` selects from a left-side and a right-side
candidate, any unrecognized value averaging (lines 70-79). -/
def method_value (method : String) (left_y right_y : ℤ) : ℤ :=
  if method = "left" then left_y
  else if method = "right" then right_y
  else Int.tdiv (left_y + right_y) 2

/-- Concrete landmark list with landmark `i` at `(i, i)`. -/
def exP : Points := fun i => ((i : ℤ), (i : ℤ))

/-- Concrete landmark list with every landmark at the origin (zero face
width). -/
def zeroWidthP : Points := fun _ => (0, 0)

/-- Detector for a directory containing the single image `b.png`, whose
landmarks are `exP`. -/
def detectEx : Detector := fun path =>
  if path = "./images/b.png" then [exP] else []

/-- Detector that finds no face in any image. -/
def noFaces : Detector := fun _ => []

theorem ok_bind {α β : Type} (a : α) (k : α → Except String β) :
    (Except.ok a >>= k) = k a := rfl

theorem error_bind {α β : Type} (e : String) (k : α → Except String β) :
    ((Except.error e : Except String α) >>= k) = Except.error e := rfl

theorem pure_ok {α : Type} (a : α) :
    (pure a : Except String α) = Except.ok a := rfl

theorem load_image_false (path : String) :
    load_image path false = Except.ok path := rfl

/-- Inversion of a successful batch loop: the filenames come back in
order and each recorded ratio is the value `get_fwhr` returned for that
file under the fixed `average`/`eyelid` configuration. -/
theorem bulk_rows_ok (detect : Detector) (folder_path : String)
    (l : List String) :
    ∀ rs : List (String × Option ℚ),
      List.mapM (bulk_row detect folder_path) l = Except.ok rs →
      rs.map Prod.fst = l ∧
      ∀ pr ∈ rs,
        get_fwhr detect (folder_path ++ pr.1) false "average" "eyelid" =
          Except.ok pr.2 := by
  induction l with
  | nil =>
    intro rs h
    rw [List.mapM_nil] at h
    have hrs : ([] : List (String × Option ℚ)) = rs := Except.ok.inj h
    subst hrs
    exact ⟨rfl, fun pr hpr => absurd hpr (List.not_mem_nil pr)⟩
  | cons f l ih =>
    intro rs h
    rw [List.mapM_cons] at h
    cases hf : bulk_row detect folder_path f with
    | error e =>
      simp only [hf, error_bind] at h
      exact Except.noConfusion h
    | ok pr =>
      simp only [hf, ok_bind] at h
      cases hl : List.mapM (bulk_row detect folder_path) l with
      | error e =>
        simp only [hl, error_bind] at h
        exact Except.noConfusion h
      | ok rs' =>
        simp only [hl, ok_bind, pure_ok] at h
        obtain ⟨ihmap, ihall⟩ := ih rs' hl
        cases hfw : get_fwhr detect (folder_path ++ f) false "average" "eyelid" with
        | error e =>
          unfold bulk_row at hf
          simp only [hfw, Except.map] at hf
          exact Except.noConfusion hf
        | ok r =>
          unfold bulk_row at hf
          simp only [hfw, Except.map] at hf
          have hpr : (f, r) = pr := Except.ok.inj hf
          subst hpr
          have hrs : ((f, r) :: rs' : List (String × Option ℚ)) = rs :=
            Except.ok.inj h
          subst hrs
          refine ⟨by simp [ihmap], fun q hq => ?_⟩
          rcases List.mem_cons.mp hq with hq | hq
          · subst hq
            exact hfw
          · exact ihall q hq

/-- Whether a successful `get_fwhr` (with `show=False`) produced a
missing ratio is decided exactly by the quality gate on the detected
landmarks. -/
theorem get_fwhr_gate_none {detect : Detector} {path : String}
    {r : Option ℚ} {lm : Points}
    (hg : get_fwhr detect path false "average" "eyelid" = Except.ok r)
    (hlm : (detect path).head? = some lm) :
    (r = none ↔ good_picture_check lm = Except.ok false) := by
  unfold get_fwhr at hg
  simp only [load_image_false] at hg
  simp only [hlm] at hg
  cases hgate : good_picture_check lm with
  | error e =>
    simp only [hgate] at hg
    exact Except.noConfusion hg
  | ok b =>
    cases b with
    | false =>
      simp only [hgate] at hg
      have hr : (none : Option ℚ) = r := Except.ok.inj hg
      subst hr
      simp [hgate]
    | true =>
      simp only [hgate] at hg
      cases hfp : get_face_points lm "average" "eyelid" with
      | error e =>
        simp only [hfp] at hg
        exact Except.noConfusion hg
      | ok corners =>
        simp only [hfp] at hg
        cases hfc : FWHR_calc corners with
        | error e =>
          simp only [hfc] at hg
          exact Except.noConfusion hg
        | ok q =>
          simp only [hfc] at hg
          have hr : (some q : Option ℚ) = r := Except.ok.inj hg
          subst hr
          constructor
          · intro hnone
            exact Option.noConfusion hnone
          · intro hfalse
            exact Bool.noConfusion (Except.ok.inj hfalse)

/-- Claim C1: with both divisors nonzero, `good_picture_check` returns
`False` exactly when one heuristic strictly exceeds its threshold
(`eye_dif > 5`, `nose_dif > 3.5` or `space_ratio > 3`) and `True` when
all three are at or below their thresholds. -/
theorem good_picture_check_thresholds (p : Points)
    (hw : (p 16).1 - (p 0).1 ≠ 0) (hr : (p 16).1 - (p 45).1 ≠ 0) :
    (good_picture_check p = Except.ok false ↔
      (eye_dif p > 5 ∨ nose_dif p > (3.5 : ℚ) ∨ space_ratio p > 3)) ∧
    (good_picture_check p = Except.ok true ↔
      (eye_dif p ≤ 5 ∧ nose_dif p ≤ (3.5 : ℚ) ∧ space_ratio p ≤ 3)) := by
  unfold good_picture_check
  rw [if_neg hw, if_neg hr]
  by_cases h : eye_dif p > 5 ∨ nose_dif p > (3.5 : ℚ) ∨ space_ratio p > 3
  · rw [if_pos h]
    refine ⟨⟨fun _ => h, fun _ => rfl⟩, fun hEq => ?_, fun hle => ?_⟩
    · exact Bool.noConfusion (Except.ok.inj hEq)
    · rcases h with h | h | h
      · exact absurd hle.1 (not_le.mpr h)
      · exact absurd hle.2.1 (not_le.mpr h)
      · exact absurd hle.2.2 (not_le.mpr h)
  · rw [if_neg h]
    push_neg at h
    refine ⟨⟨fun hEq => Bool.noConfusion (Except.ok.inj hEq), fun hor => ?_⟩,
      fun _ => h, fun _ => rfl⟩
    rcases hor with h1 | h1 | h1
    · exact absurd h1 (not_lt.mpr h.1)
    · exact absurd h1 (not_lt.mpr h.2.1)
    · exact absurd h1 (not_lt.mpr h.2.2)

/-- Witness for C1: on the landmark list with point `i` at `(i, i)` the
eye-height heuristic is `37.5 > 5`, so the gate rejects. -/
theorem good_picture_check_thresholds_witness :
    good_picture_check exP = Except.ok false :=
  ((good_picture_check_thresholds exP (by decide) (by decide)).1).mpr
    (Or.inl (by
      unfold eye_dif width_im
      simp only [show (exP 37).2 = 37 from rfl, show (exP 41).2 = 41 from rfl,
        show (exP 44).2 = 44 from rfl, show (exP 46).2 = 46 from rfl,
        show (exP 16).1 = 16 from rfl, show (exP 0).1 = 0 from rfl]
      norm_num))

/-- Claim C2: `FWHR_calc` returns exactly
`(top_right.x - top_left.x) / (bottom_left.y - top_left.y)` whenever the
height is nonzero (negative heights included, with no guard), and the
unguarded division raises on a zero height. -/
theorem FWHR_calc_spec (corners : BoxCorners) :
    (corners.bottom_left.2 - corners.top_left.2 ≠ 0 →
      FWHR_calc corners =
        Except.ok (((corners.top_right.1 - corners.top_left.1 : ℤ) : ℚ) /
          ((corners.bottom_left.2 - corners.top_left.2 : ℤ) : ℚ))) ∧
    (corners.bottom_left.2 - corners.top_left.2 = 0 →
      FWHR_calc corners = Except.error "ZeroDivisionError") := by
  constructor
  · intro h
    simp [FWHR_calc, h]
  · intro h
    simp [FWHR_calc, h]

/-- Witness for C2: corners with width 50 and height 25 give exactly 2. -/
theorem FWHR_calc_spec_witness :
    FWHR_calc ⟨(0, 0), (0, 25), (50, 0), (50, 25)⟩ = Except.ok 2 := by
  have h := (FWHR_calc_spec ⟨(0, 0), (0, 25), (50, 0), (50, 25)⟩).1 (by decide)
  rw [h]
  norm_num

/-- Counterexample for C3: with `top='eyelid'` and `method='average'`
the box's top y is NOT the truncating integer average of the two top
points' y-coordinates (points 37/43): on the landmark list with point
`i` at `(i, i)` the average is 40 but the box's top y is 36. -/
theorem get_face_points_unshifted_counterexample :
    (get_face_points exP "average" "eyelid").map (fun c => c.top_left.2) ≠
      Except.ok (Int.tdiv ((exP 37).2 + (exP 43).2) 2) := by decide

/-- Claim C3 (amended): with `method='average'` the box's top y is the
truncating integer average of the two top points' y-coordinates shifted
by -4 when `top='eyelid'` (unshifted for `top='eyebrow'`) and the bottom
y is the truncating integer average of the y-coordinates of points 50
and 52; with `method='left'`/`'right'` the top y is the corresponding
single side's value with the same eyelid shift and the bottom y is
exactly that side's value. -/
theorem get_face_points_method_values (p : Points) :
    ((get_face_points p "average" "eyebrow").map
        (fun c => (c.top_left.2, c.top_right.2, c.bottom_left.2, c.bottom_right.2)) =
      Except.ok (Int.tdiv ((p 18).2 + (p 25).2) 2, Int.tdiv ((p 18).2 + (p 25).2) 2,
        Int.tdiv ((p 50).2 + (p 52).2) 2, Int.tdiv ((p 50).2 + (p 52).2) 2)) ∧
    ((get_face_points p "left" "eyebrow").map
        (fun c => (c.top_left.2, c.top_right.2, c.bottom_left.2, c.bottom_right.2)) =
      Except.ok ((p 18).2, (p 18).2, (p 50).2, (p 50).2)) ∧
    ((get_face_points p "right" "eyebrow").map
        (fun c => (c.top_left.2, c.top_right.2, c.bottom_left.2, c.bottom_right.2)) =
      Except.ok ((p 25).2, (p 25).2, (p 52).2, (p 52).2)) ∧
    ((get_face_points p "average" "eyelid").map
        (fun c => (c.top_left.2, c.top_right.2, c.bottom_left.2, c.bottom_right.2)) =
      Except.ok (Int.tdiv ((p 37).2 + (p 43).2) 2 - 4, Int.tdiv ((p 37).2 + (p 43).2) 2 - 4,
        Int.tdiv ((p 50).2 + (p 52).2) 2, Int.tdiv ((p 50).2 + (p 52).2) 2)) ∧
    ((get_face_points p "left" "eyelid").map
        (fun c => (c.top_left.2, c.top_right.2, c.bottom_left.2, c.bottom_right.2)) =
      Except.ok ((p 37).2 - 4, (p 37).2 - 4, (p 50).2, (p 50).2)) ∧
    ((get_face_points p "right" "eyelid").map
        (fun c => (c.top_left.2, c.top_right.2, c.bottom_left.2, c.bottom_right.2)) =
      Except.ok ((p 43).2 - 4, (p 43).2 - 4, (p 52).2, (p 52).2)) := by
  refine ⟨?_, ?_, ?_, ?_, ?_, ?_⟩ <;> rfl

/-- Claim C4: for every method (the average fallback included),
`top='eyelid'` yields a top y exactly 4 less than the value the method
computes from the raw y-coordinates of points 37/43, while
`top='eyebrow'` applies no shift to the value computed from points
18/25. -/
theorem get_face_points_top_shift (p : Points) (method : String) :
    ((get_face_points p method "eyelid").map
        (fun c => (c.top_left.2, c.top_right.2)) =
      Except.ok (method_value method (p 37).2 (p 43).2 - 4,
        method_value method (p 37).2 (p 43).2 - 4)) ∧
    ((get_face_points p method "eyebrow").map
        (fun c => (c.top_left.2, c.top_right.2)) =
      Except.ok (method_value method (p 18).2 (p 25).2,
        method_value method (p 18).2 (p 25).2)) := by
  by_cases h1 : method = "left" <;> by_cases h2 : method = "right" <;>
    simp [get_face_points, method_value, Except.map, h1, h2]

/-- Claim C5: every box returned by `get_face_points` has its left x at
`points[0].x` and its right x at `points[16].x`, for every method and
valid top. -/
theorem get_face_points_width_fixed (p : Points) (method top : String)
    (c : BoxCorners) (h : get_face_points p method top = Except.ok c) :
    c.top_left.1 = (p 0).1 ∧ c.bottom_left.1 = (p 0).1 ∧
    c.top_right.1 = (p 16).1 ∧ c.bottom_right.1 = (p 16).1 := by
  by_cases h1 : top = "eyebrow" <;> by_cases h2 : top = "eyelid" <;>
    by_cases h3 : method = "left" <;> by_cases h4 : method = "right" <;>
      simp [get_face_points, h1, h2, h3, h4] at h <;>
        simp [← h]

/-- Witness for C5 at the landmark list with point `i` at `(i, i)`,
`method='average'`, `top='eyebrow'`. -/
theorem get_face_points_width_fixed_witness :
    (⟨(0, 21), (0, 51), (16, 21), (16, 51)⟩ : BoxCorners).top_left.1 = (exP 0).1 ∧
    (⟨(0, 21), (0, 51), (16, 21), (16, 51)⟩ : BoxCorners).bottom_left.1 = (exP 0).1 ∧
    (⟨(0, 21), (0, 51), (16, 21), (16, 51)⟩ : BoxCorners).top_right.1 = (exP 16).1 ∧
    (⟨(0, 21), (0, 51), (16, 21), (16, 51)⟩ : BoxCorners).bottom_right.1 = (exP 16).1 :=
  get_face_points_width_fixed exP "average" "eyebrow"
    ⟨(0, 21), (0, 51), (16, 21), (16, 51)⟩ (by decide)

/-- Claim C6: `get_face_points` raises an invalid-argument error for
every `top` other than `eyebrow`/`eyelid`, while every unrecognized
`method` silently behaves exactly like `average`. -/
theorem get_face_points_validation (p : Points) (method top : String) :
    (top ≠ "eyebrow" → top ≠ "eyelid" →
      get_face_points p method top =
        Except.error "Invalid top point, use either eyebrow or eyelid") ∧
    (method ≠ "left" → method ≠ "right" →
      get_face_points p method top = get_face_points p "average" top) := by
  constructor
  · intro h1 h2
    simp [get_face_points, h1, h2]
  · intro h1 h2
    simp [get_face_points, h1, h2]

/-- Witness for C6: `top='nose'` raises, while the unrecognized
`method='median'` equals `method='average'`. -/
theorem get_face_points_validation_witness :
    get_face_points exP "median" "nose" =
      Except.error "Invalid top point, use either eyebrow or eyelid" ∧
    get_face_points exP "median" "eyebrow" =
      get_face_points exP "average" "eyebrow" :=
  ⟨(get_face_points_validation exP "median" "nose").1 (by decide) (by decide),
   (get_face_points_validation exP "median" "eyebrow").2 (by decide) (by decide)⟩

/-- Claim C7: for any `sort_by` other than `filename`/`ratio`,
`get_fwhr_bulk` never produces an output file (no `Except.ok` value),
and whenever the per-image loop itself succeeds the result is exactly
the invalid-argument error. -/
theorem get_fwhr_bulk_invalid_sort (detect : Detector) (files : List String)
    (folder_path sort_by : String)
    (h1 : sort_by ≠ "filename") (h2 : sort_by ≠ "ratio") :
    (∀ result, get_fwhr_bulk detect files folder_path sort_by ≠
      Except.ok result) ∧
    (∀ image_data, bulk_rows detect folder_path files = Except.ok image_data →
      get_fwhr_bulk detect files folder_path sort_by =
        Except.error ("Invalid value for sort_by: " ++ sort_by ++
          ". Accepted values are filename and ratio.")) := by
  constructor
  · intro result hok
    unfold get_fwhr_bulk at hok
    cases hbr : bulk_rows detect folder_path files with
    | error e =>
      simp only [hbr] at hok
      exact Except.noConfusion hok
    | ok image_data =>
      simp only [hbr, if_neg h1, if_neg h2] at hok
      exact Except.noConfusion hok
  · intro image_data hbr
    unfold get_fwhr_bulk
    simp only [hbr, if_neg h1, if_neg h2]

/-- Witness for C7: `sort_by='bogus'` on an empty directory raises the
invalid-argument error. -/
theorem get_fwhr_bulk_invalid_sort_witness :
    get_fwhr_bulk noFaces [] "./images/" "bogus" =
      Except.error ("Invalid value for sort_by: " ++ "bogus" ++
        ". Accepted values are filename and ratio.") :=
  (get_fwhr_bulk_invalid_sort noFaces [] "./images/" "bogus"
    (by decide) (by decide)).2 [] (by rfl)

/-- Claim C8: in a successful batch run, the output table's filenames
are exactly (a permutation of) the `.jpg`/`.png` files, each file
contributing one row; each row's ratio is the result of `get_fwhr` with
`show=False` under the fixed configuration `method='average'`,
`top='eyelid'`; and a row's ratio is missing exactly when the quality
gate rejected its image's landmarks. -/
theorem get_fwhr_bulk_rows_spec (detect : Detector) (files : List String)
    (folder_path sort_by csv : String) (rows : List (String × Option ℚ))
    (h : get_fwhr_bulk detect files folder_path sort_by =
      Except.ok (csv, rows)) :
    (rows.map Prod.fst).Perm
      (files.filter fun f => ends_with f ".jpg" || ends_with f ".png") ∧
    (∀ pr ∈ rows,
      get_fwhr detect (folder_path ++ pr.1) false "average" "eyelid" =
        Except.ok pr.2) ∧
    (∀ pr ∈ rows, ∀ lm, (detect (folder_path ++ pr.1)).head? = some lm →
      (pr.2 = none ↔ good_picture_check lm = Except.ok false)) := by
  unfold get_fwhr_bulk at h
  cases hbr : bulk_rows detect folder_path files with
  | error e =>
    simp only [hbr] at h
    exact Except.noConfusion h
  | ok image_data =>
    simp only [hbr] at h
    unfold bulk_rows at hbr
    obtain ⟨hmap, hall⟩ := bulk_rows_ok detect folder_path
      (files.filter fun f => ends_with f ".jpg" || ends_with f ".png")
      image_data hbr
    have hperm : rows.Perm image_data := by
      by_cases hs1 : sort_by = "filename"
      · rw [if_pos hs1] at h
        have hml : image_data.mergeSort filename_le = rows :=
          congrArg Prod.snd (Except.ok.inj h)
        exact hml ▸ List.mergeSort_perm image_data filename_le
      · by_cases hs2 : sort_by = "ratio"
        · rw [if_neg hs1, if_pos hs2] at h
          have hml : image_data.mergeSort ratio_le = rows :=
            congrArg Prod.snd (Except.ok.inj h)
          exact hml ▸ List.mergeSort_perm image_data ratio_le
        · rw [if_neg hs1, if_neg hs2] at h
          exact Except.noConfusion h
    refine ⟨?_, fun pr hpr => hall pr (hperm.mem_iff.mp hpr),
      fun pr hpr lm hlm =>
        get_fwhr_gate_none (hall pr (hperm.mem_iff.mp hpr)) hlm⟩
    have hm := hperm.map Prod.fst
    rw [hmap] at hm
    exact hm

/-- Witness for C8: a one-image directory whose image fails the quality
gate yields a row with a missing ratio. -/
theorem get_fwhr_bulk_rows_spec_witness :
    get_fwhr detectEx ("./images/" ++ "b.png") false "average" "eyelid" =
      Except.ok none := by
  have hgate : good_picture_check exP = Except.ok false := by
    have hd : eye_dif exP > 5 ∨ nose_dif exP > (3.5 : ℚ) ∨
        space_ratio exP > 3 := Or.inl (by
      unfold eye_dif width_im
      simp only [show (exP 37).2 = 37 from rfl, show (exP 41).2 = 41 from rfl,
        show (exP 44).2 = 44 from rfl, show (exP 46).2 = 46 from rfl,
        show (exP 16).1 = 16 from rfl, show (exP 0).1 = 0 from rfl]
      norm_num)
    have hw : ¬((exP 16).1 - (exP 0).1 = 0) := by decide
    have hr : ¬((exP 16).1 - (exP 45).1 = 0) := by decide
    unfold good_picture_check
    rw [if_neg hw, if_neg hr, if_pos hd]
  have hfw : get_fwhr detectEx ("./images/" ++ "b.png") false "average"
      "eyelid" = Except.ok none := by
    unfold get_fwhr
    simp only [load_image_false]
    simp only [show (detectEx ("./images/" ++ "b.png")).head? = some exP
      from rfl]
    simp only [hgate]
  have hrow : bulk_row detectEx "./images/" "b.png" =
      Except.ok ("b.png", none) := by
    unfold bulk_row
    rw [hfw]
    rfl
  have hrows : bulk_rows detectEx "./images/" ["b.png"] =
      Except.ok [("b.png", none)] := by
    unfold bulk_rows
    rw [show (["b.png"].filter fun f =>
      ends_with f ".jpg" || ends_with f ".png") = ["b.png"] from by decide]
    rw [List.mapM_cons, hrow, List.mapM_nil]
    rfl
  have hbulk : get_fwhr_bulk detectEx ["b.png"] "./images/" "ratio" =
      Except.ok ("./images/" ++ "fwhr_ratios.csv", [("b.png", none)]) := by
    unfold get_fwhr_bulk
    simp only [hrows]
    simp
  exact (get_fwhr_bulk_rows_spec detectEx ["b.png"] "./images/" "ratio"
    ("./images/" ++ "fwhr_ratios.csv") [("b.png", none)] hbulk).2.1
    ("b.png", none) (by simp)

/-- Claim C9: with `url=True`, `load_image` accepts exactly the paths
whose last three characters are `jpg` or `png` — every accepted URL is
fetched to the fixed temporary filename `tmp.jpg` — and any other URL
raises an invalid-argument error. -/
theorem load_image_url_spec (path : String) :
    (load_image path true = Except.ok "tmp.jpg" ↔
      (path.takeRight 3 = "jpg" ∨ path.takeRight 3 = "png")) ∧
    (path.takeRight 3 ≠ "jpg" → path.takeRight 3 ≠ "png" →
      load_image path true = Except.error "Unknown image type") := by
  by_cases h1 : path.takeRight 3 = "jpg" <;>
    by_cases h2 : path.takeRight 3 = "png" <;>
      simp [load_image, h1, h2]

/-- Witness for C9: a `.gif` URL is refused. -/
theorem load_image_url_spec_witness :
    load_image "http://x/a.gif" true = Except.error "Unknown image type" :=
  (load_image_url_spec "http://x/a.gif").2 (by decide) (by decide)

/-- Claim C10: `good_picture_check` reaches its division-by-zero branch
exactly on zero face width (`p[16].x = p[0].x`) or zero right space
(`p[16].x = p[45].x`), and under the complementary precondition every
division is defined and the function returns a boolean verdict. -/
theorem good_picture_check_divisions (p : Points) :
    ((p 16).1 = (p 0).1 ∨ (p 16).1 = (p 45).1 →
      good_picture_check p = Except.error "ZeroDivisionError") ∧
    ((p 16).1 ≠ (p 0).1 → (p 16).1 ≠ (p 45).1 →
      (good_picture_check p = Except.ok true ∨
       good_picture_check p = Except.ok false)) := by
  constructor
  · intro h
    unfold good_picture_check
    by_cases hw : (p 16).1 - (p 0).1 = 0
    · simp [hw]
    · have hr : (p 16).1 - (p 45).1 = 0 := by
        rcases h with h | h
        · exact absurd (by omega) hw
        · omega
      simp [hw, hr]
  · intro h1 h2
    unfold good_picture_check
    have hw : ¬((p 16).1 - (p 0).1 = 0) := by omega
    have hr : ¬((p 16).1 - (p 45).1 = 0) := by omega
    by_cases h : eye_dif p > 5 ∨ nose_dif p > (3.5 : ℚ) ∨ space_ratio p > 3
    · right
      simp [hw, hr, h]
    · left
      simp [hw, hr, h]

/-- Witness for C10: all landmarks at the origin trigger the
division-by-zero branch; the list with point `i` at `(i, i)` satisfies
the precondition and gets a verdict. -/
theorem good_picture_check_divisions_witness :
    good_picture_check zeroWidthP = Except.error "ZeroDivisionError" ∧
    (good_picture_check exP = Except.ok true ∨
     good_picture_check exP = Except.ok false) :=
  ⟨(good_picture_check_divisions zeroWidthP).1 (Or.inl rfl),
   (good_picture_check_divisions exP).2 (by decide) (by decide)⟩
